import Mathlib

/-!
Verification of the request handler in
`python/apigw-http-api-lambda-dynamodb-python-cdk/lambda/apigw-handler/index.py`
(the `handler` function) against the repository's specification.

The handler is shallowly embedded: Python values parsed from JSON are an
inductive `Json` type; `json.loads` is an executable JSON parser over the
integer/string/boolean/null/array/object fragment (fractional and exponent
number forms, which no behaviour of interest touches, are outside the model);
Python exceptions are an explicit `PyErr`; the DynamoDB client is modelled by
an explicit list of issued operations; `uuid.uuid4()`, `time.time()`,
`os.environ.get("TABLE_NAME")` and the Lambda context are parameters supplied
by the environment.
-/

namespace ApigwHandler

/-- A JSON value as produced by Python's `json.loads` (numbers restricted to
integers; Python's `float` results are outside the model). -/
inductive Json where
  | null
  | bool (b : Bool)
  | num (n : Int)
  | str (s : String)
  | arr (xs : List Json)
  | obj (kvs : List (String × Json))

/-- Python exceptions that the handler can let propagate. -/
inductive PyErr where
  /-- `json.JSONDecodeError` from `json.loads`. -/
  | jsonDecodeError
  /-- `KeyError` from subscripting a dict with a missing key. -/
  | keyError (k : String)
  /-- `TypeError` from subscripting a non-dict value with a string key. -/
  | typeError
deriving DecidableEq, Repr

/-! ### The JSON parser (model of `json.loads`) -/

/-- JSON whitespace characters. -/
def isJsonWs (c : Char) : Bool :=
  c = ' ' || c = '\t' || c = '\n' || c = '\r'

/-- Skip leading JSON whitespace. -/
def skipWs : List Char → List Char
  | [] => []
  | c :: cs => if isJsonWs c then skipWs cs else c :: cs

/-- Parse a run of decimal digits, accumulating their value. -/
def parseDigits : List Char → Nat → Option (Nat × List Char)
  | [], _ => none
  | c :: cs, acc =>
    if c.isDigit then
      match parseDigits cs (acc * 10 + (c.toNat - 48)) with
      | some r => some r
      | none => some (acc * 10 + (c.toNat - 48), cs)
    else
      none

/-- Hex digit value, if `c` is a hex digit (code points compared
numerically: 0-9, a-f, A-F). -/
def hexVal (c : Char) : Option Nat :=
  let n := c.toNat
  if 48 ≤ n && n ≤ 57 then some (n - 48)
  else if 97 ≤ n && n ≤ 102 then some (n - 87)
  else if 65 ≤ n && n ≤ 70 then some (n - 55)
  else none

/-- Parse the body of a JSON string literal (after the opening quote),
handling the escape sequences `json.loads` accepts.  Unescaped control
characters are rejected, as in Python's strict mode. -/
def parseStringBody : List Char → List Char → Option (String × List Char)
  | [], _ => none
  | c :: cs, acc =>
    if c = '"' then some (String.mk acc.reverse, cs)
    else if c = '\\' then
      match cs with
      | [] => none
      | e :: cs' =>
        if e = '"' then parseStringBody cs' ('"' :: acc)
        else if e = '\\' then parseStringBody cs' ('\\' :: acc)
        else if e = '/' then parseStringBody cs' ('/' :: acc)
        else if e = 'b' then parseStringBody cs' ('\x08' :: acc)
        else if e = 'f' then parseStringBody cs' ('\x0c' :: acc)
        else if e = 'n' then parseStringBody cs' ('\n' :: acc)
        else if e = 'r' then parseStringBody cs' ('\r' :: acc)
        else if e = 't' then parseStringBody cs' ('\t' :: acc)
        else if e = 'u' then
          match cs' with
          | h1 :: h2 :: h3 :: h4 :: cs'' =>
            match hexVal h1, hexVal h2, hexVal h3, hexVal h4 with
            | some v1, some v2, some v3, some v4 =>
              parseStringBody cs''
                (Char.ofNat (((v1 * 16 + v2) * 16 + v3) * 16 + v4) :: acc)
            | _, _, _, _ => none
          | _ => none
        else none
    else if c.toNat < 0x20 then none
    else parseStringBody cs (c :: acc)

/-- Parse a JSON number (integer fragment).  A leading `0` is not followed by
further digits; a following `.`, `e` or `E` (a float in Python) is outside
the model and rejected. -/
def parseNumber : List Char → Option (Int × List Char)
  | [] => none
  | c :: cs =>
    let core : List Char → Option (Int × List Char) := fun ds =>
      match ds with
      | [] => none
      | d :: ds' =>
        if d = '0' then some (0, ds')
        else
          match parseDigits (d :: ds') 0 with
          | some (n, rest) => some ((n : Int), rest)
          | none => none
    let checked : Option (Int × List Char) → Option (Int × List Char) := fun r =>
      match r with
      | some (n, rest) =>
        match rest with
        | [] => some (n, [])
        | r0 :: _ =>
          if r0 = '.' || r0 = 'e' || r0 = 'E' || r0.isDigit then none
          else some (n, rest)
      | none => none
    if c = '-' then
      match checked (core cs) with
      | some (n, rest) => some (-n, rest)
      | none => none
    else
      checked (core (c :: cs))

mutual

/-- Parse one JSON value (fuel-indexed recursive descent). -/
def parseJsonValue : Nat → List Char → Option (Json × List Char)
  | 0, _ => none
  | _ + 1, [] => none
  | fuel + 1, c :: cs =>
    if c = 'n' then
      match cs with
      | 'u' :: 'l' :: 'l' :: rest => some (.null, rest)
      | _ => none
    else if c = 't' then
      match cs with
      | 'r' :: 'u' :: 'e' :: rest => some (.bool true, rest)
      | _ => none
    else if c = 'f' then
      match cs with
      | 'a' :: 'l' :: 's' :: 'e' :: rest => some (.bool false, rest)
      | _ => none
    else if c = '"' then
      match parseStringBody cs [] with
      | some (s, rest) => some (.str s, rest)
      | none => none
    else if c = '[' then
      match skipWs cs with
      | ']' :: rest => some (.arr [], rest)
      | cs' => parseArrayTail fuel cs' []
    else if c = '\x7b' then
      match skipWs cs with
      | '\x7d' :: rest => some (.obj [], rest)
      | cs' => parseObjectTail fuel cs' []
    else
      match parseNumber (c :: cs) with
      | some (n, rest) => some (.num n, rest)
      | none => none

/-- Parse the remaining items of a JSON array (the accumulator holds the
items parsed so far, reversed). -/
def parseArrayTail : Nat → List Char → List Json → Option (Json × List Char)
  | 0, _, _ => none
  | fuel + 1, cs, acc =>
    match parseJsonValue fuel (skipWs cs) with
    | some (v, rest) =>
      match skipWs rest with
      | ',' :: rest' => parseArrayTail fuel rest' (v :: acc)
      | ']' :: rest' => some (.arr (v :: acc).reverse, rest')
      | _ => none
    | none => none

/-- Parse the remaining members of a JSON object (the accumulator holds the
members parsed so far, reversed). -/
def parseObjectTail : Nat → List Char → List (String × Json) →
    Option (Json × List Char)
  | 0, _, _ => none
  | fuel + 1, cs, acc =>
    match skipWs cs with
    | '"' :: cs' =>
      match parseStringBody cs' [] with
      | some (k, rest) =>
        match skipWs rest with
        | ':' :: rest' =>
          match parseJsonValue fuel (skipWs rest') with
          | some (v, rest'') =>
            match skipWs rest'' with
            | ',' :: rest3 => parseObjectTail fuel rest3 ((k, v) :: acc)
            | '\x7d' :: rest3 => some (.obj ((k, v) :: acc).reverse, rest3)
            | _ => none
          | none => none
        | _ => none
      | none => none
    | _ => none

end

/-- Model of Python's `json.loads`: parse the whole string as one JSON value
(surrounding whitespace allowed), or raise `JSONDecodeError`. -/
def json_loads (s : String) : Except PyErr Json :=
  match parseJsonValue (s.length + 1) (skipWs s.data) with
  | some (v, rest) =>
    match skipWs rest with
    | [] => .ok v
    | _ => .error .jsonDecodeError
  | none => .error .jsonDecodeError

/-! ### Python `str()` on parsed JSON values -/

/-- The single-quote character, used by Python `repr` of strings. -/
def squoteChar : Char := Char.ofNat 39

/-- Escape a backslash or single quote for Python string `repr`. -/
def reprEsc (c : Char) : List Char :=
  if c = '\\' then ['\\', '\\']
  else if c = squoteChar then ['\\', squoteChar]
  else [c]

mutual

/-- Python `repr` of a value parsed from JSON, over the printable fragment
(string `repr` is modelled with single-quote quoting; Python's alternate
double-quote choice for strings containing a single quote, and escaping of
non-printable characters, are outside the model — only log text depends on
this). -/
def py_repr : Json → String
  | .null => "None"
  | .bool true => "True"
  | .bool false => "False"
  | .num n => toString n
  | .str s =>
    String.mk (squoteChar :: (s.data.flatMap reprEsc ++ [squoteChar]))
  | .arr xs => "[" ++ py_repr_items xs ++ "]"
  | .obj kvs => "\x7b" ++ py_repr_members kvs ++ "\x7d"

/-- `repr` of the elements of a Python list, comma-separated. -/
def py_repr_items : List Json → String
  | [] => ""
  | [x] => py_repr x
  | x :: y :: xs => py_repr x ++ ", " ++ py_repr_items (y :: xs)

/-- `repr` of the members of a Python dict, comma-separated. -/
def py_repr_members : List (String × Json) → String
  | [] => ""
  | [(k, v)] => py_repr (.str k) ++ ": " ++ py_repr v
  | (k, v) :: m :: kvs =>
    py_repr (.str k) ++ ": " ++ py_repr v ++ ", " ++ py_repr_members (m :: kvs)

end

/-- Python `str()` on a value parsed from JSON: identity on strings, decimal
on integers, `True`/`False` on booleans, `None` on null, `repr`-based
rendering on containers. -/
def py_str : Json → String
  | .str s => s
  | .num n => toString n
  | .bool true => "True"
  | .bool false => "False"
  | .null => "None"
  | .arr xs => py_repr (.arr xs)
  | .obj kvs => py_repr (.obj kvs)

/-! ### Python dict access -/

/-- Python dict lookup on an object parsed by `json.loads` (with duplicate
keys in the JSON text, the last occurrence wins, as in Python). -/
def dictGet (kvs : List (String × Json)) (k : String) : Option Json :=
  (kvs.reverse.find? (fun p => p.1 == k)).map (·.2)

/-- Python subscripting `v[k]` with a string key: a dict yields the value or
raises `KeyError`; any non-dict value raises `TypeError`. -/
def py_subscript (v : Json) (k : String) : Except PyErr Json :=
  match v with
  | .obj kvs =>
    match dictGet kvs k with
    | some x => .ok x
    | none => .error (.keyError k)
  | _ => .error .typeError

/-! ### The event, the Lambda context, logs and DynamoDB operations -/

/-- The `requestContext.identity` object of an API Gateway event. -/
structure Identity where
  sourceIp : Option String
  userAgent : Option String

/-- The `requestContext` object of an API Gateway event. -/
structure RequestContext where
  identity : Option Identity
  stage : Option String

/-- The inbound API Gateway proxy event.  In the proxy integration the
`body` key is always present, as a string or `null`; it is modelled as an
`Option String` (`none` being `null`).  All other fields feed only the
security log. -/
structure Event where
  body : Option String
  httpMethod : Option String
  path : Option String
  resource : Option String
  requestContext : Option RequestContext

/-- The Lambda context object (only `aws_request_id` is used). -/
structure LambdaContext where
  aws_request_id : String

/-- The `security_log` dict assembled at the top of the handler. -/
structure SecurityLog where
  event_type : String
  timestamp : Int
  request_id : String
  source_ip : Option String
  user_agent : Option String
  method : Option String
  path : Option String
  resource : Option String
  stage : Option String

/-- The `operation_log` dict emitted after the DynamoDB write. -/
structure OperationLog where
  event_type : String
  operation : String
  table : Option String
  item_id : String
  request_id : String
  status : String
  note : Option String

/-- One log record emitted by the handler (structured dicts are kept as
records rather than as their `json.dumps` rendering). -/
inductive LogEntry where
  | security (l : SecurityLog)
  | info (msg : String)
  | operation (l : OperationLog)

/-- A typed DynamoDB attribute value (`{"N": v}` or `{"S": v}`). -/
inductive AttrValue where
  | N (v : String)
  | S (v : String)
deriving DecidableEq

/-- A DynamoDB client call.  The client also offers reads (`get_item`);
the constructor is present so that "the handler never reads" is a statement
about which operations the handler issues. -/
inductive DynamoOp where
  | putItem (tableName : Option String) (item : List (String × AttrValue))
  | getItem (tableName : Option String) (key : List (String × AttrValue))
deriving DecidableEq

/-- The handler's HTTP-shaped return value. -/
structure Response where
  statusCode : Nat
  headers : List (String × String)
  body : String
deriving DecidableEq

/-- Everything one invocation produces: the log entries, the DynamoDB
operations issued (in order), and the returned response or the propagated
exception. -/
structure HandlerResult where
  logs : List LogEntry
  ops : List DynamoOp
  result : Except PyErr Response

/-- Python truthiness of the event body (`None` and `""` are falsy). -/
def pyTruthy : Option String → Bool
  | none => false
  | some s => !s.isEmpty

/-- f-string rendering of an optional string (`None` when absent). -/
def optStr : Option String → String
  | none => "None"
  | some s => s

/-- The body `json.dumps({"message": "Successfully inserted data!"})` of the
success response. -/
def successBody : String :=
  "\x7b\"message\": \"Successfully inserted data!\"\x7d"

/-- The fixed 200 success response returned on both branches. -/
def successResponse : Response :=
  { statusCode := 200
    headers := [("Content-Type", "application/json")]
    body := successBody }

/-! ### The handler -/

/-- Model of `handler(event, context)` from
`lambda/apigw-handler/index.py`.  The parameters `table`, `now` and `uuid4`
supply the environmental values `os.environ.get("TABLE_NAME")`,
`int(time.time())` and `str(uuid.uuid4())`. -/
def handler (table : Option String) (now : Int) (uuid4 : String)
    (event : Event) (context : LambdaContext) : HandlerResult :=
  let securityLog : LogEntry := .security
    { event_type := "api_request"
      timestamp := now
      request_id := context.aws_request_id
      source_ip := (event.requestContext.bind (·.identity)).bind (·.sourceIp)
      user_agent := (event.requestContext.bind (·.identity)).bind (·.userAgent)
      method := event.httpMethod
      path := event.path
      resource := event.resource
      stage := event.requestContext.bind (·.stage) }
  let tableLog : LogEntry := .info
    ("## Loaded table name from environemt variable DDB_TABLE: " ++
      optStr table)
  if pyTruthy event.body then
    match json_loads (event.body.getD "") with
    | .error e => ⟨[securityLog, tableLog], [], .error e⟩
    | .ok item =>
      let payloadLog : LogEntry := .info ("## Received payload: " ++ py_str item)
      match py_subscript item "year" with
      | .error e => ⟨[securityLog, tableLog, payloadLog], [], .error e⟩
      | .ok yearv =>
        match py_subscript item "title" with
        | .error e => ⟨[securityLog, tableLog, payloadLog], [], .error e⟩
        | .ok titlev =>
          match py_subscript item "id" with
          | .error e => ⟨[securityLog, tableLog, payloadLog], [], .error e⟩
          | .ok idv =>
            let year := py_str yearv
            let title := py_str titlev
            let id := py_str idv
            let put : DynamoOp := .putItem table
              [("year", .N year), ("title", .S title), ("id", .S id)]
            let opLog : LogEntry := .operation
              { event_type := "data_operation"
                operation := "put_item"
                table := table
                item_id := id
                request_id := context.aws_request_id
                status := "success"
                note := none }
            ⟨[securityLog, tableLog, payloadLog, opLog], [put],
              .ok successResponse⟩
  else
    let noPayloadLog : LogEntry := .info "## Received request without a payload"
    let default_id := uuid4
    let put : DynamoOp := .putItem table
      [("year", .N "2012"), ("title", .S "The Amazing Spider-Man 2"),
        ("id", .S default_id)]
    let opLog : LogEntry := .operation
      { event_type := "data_operation"
        operation := "put_item"
        table := table
        item_id := default_id
        request_id := context.aws_request_id
        status := "success"
        note := some "default_payload_used" }
    ⟨[securityLog, tableLog, noPayloadLog, opLog], [put], .ok successResponse⟩

/-! ### Abstract table state

The stack (`stacks/apigw_http_api_lambda_dynamodb_python_cdk_stack.py`)
declares the table with string partition key `id`, so the table state is a
map from `id` values to items, and `put_item` is an unconditional upsert by
that key. -/

/-- The abstract state of the DynamoDB table: items keyed by the string
value of their `id` partition-key attribute. -/
def Store := String → Option (List (String × AttrValue))

/-- The `id` partition-key value of an item (its `S` attribute value), if
present. -/
def itemKey (item : List (String × AttrValue)) : Option String :=
  match item.find? (fun p => p.1 == "id") with
  | some (_, .S v) => some v
  | _ => none

/-- Apply one DynamoDB call to the table state: `put_item` upserts the item
by its partition key (last write wins), `get_item` leaves the state
unchanged. -/
def applyOp (st : Store) : DynamoOp → Store
  | .putItem _ item =>
    match itemKey item with
    | some k => fun q => if q = k then some item else st q
    | none => st
  | .getItem _ _ => st

/-- Apply a sequence of DynamoDB calls, in order, to the table state. -/
def applyOps (st : Store) (ops : List DynamoOp) : Store :=
  ops.foldl applyOp st

/-! ### Branch characterization lemmas -/

/-- On a non-empty body that parses as a JSON object containing the three
keys, the handler issues the single coerced `put_item` and returns the fixed
success response. -/
theorem handler_body_ok (table : Option String) (now : Int) (uuid4 : String)
    (event : Event) (ctx : LambdaContext) {s : String}
    {m : List (String × Json)} {y t i : Json}
    (hbody : event.body = some s) (hne : s.isEmpty = false)
    (hparse : json_loads s = .ok (.obj m))
    (hy : dictGet m "year" = some y)
    (ht : dictGet m "title" = some t)
    (hi : dictGet m "id" = some i) :
    (handler table now uuid4 event ctx).ops =
      [.putItem table [("year", .N (py_str y)), ("title", .S (py_str t)),
        ("id", .S (py_str i))]] ∧
    (handler table now uuid4 event ctx).result = .ok successResponse := by
  unfold handler
  simp [hbody, pyTruthy, hne, hparse, py_subscript, hy, ht, hi]

/-- A non-empty string has `isEmpty = false`. -/
theorem isEmpty_false_of_ne (s : String) (h : s ≠ "") : s.isEmpty = false := by
  cases hs : s.isEmpty
  · rfl
  · exact absurd ((String.isEmpty_iff s).mp hs) h

/-- `json_loads` raises only `JSONDecodeError`. -/
theorem json_loads_error_shape (s : String) (e : PyErr)
    (h : json_loads s = .error e) : e = .jsonDecodeError := by
  unfold json_loads at h
  split at h
  · split at h
    · cases h
    · cases h
      rfl
  · cases h
    rfl

/-- On the default branch (absent or empty body), the handler issues the
single default `put_item` and returns the fixed success response. -/
theorem handler_default_ok (table : Option String) (now : Int) (uuid4 : String)
    (event : Event) (ctx : LambdaContext)
    (hbody : event.body = none ∨ event.body = some "") :
    (handler table now uuid4 event ctx).ops =
      [.putItem table [("year", .N "2012"),
        ("title", .S "The Amazing Spider-Man 2"), ("id", .S uuid4)]] ∧
    (handler table now uuid4 event ctx).result = .ok successResponse := by
  unfold handler
  rcases hbody with h | h <;>
    simp [h, pyTruthy, show ("" : String).isEmpty = true from rfl]

/-! ### The claims -/

/-- C1: for every event whose body is a non-empty string parsing as a JSON
mapping containing keys "year", "title" and "id", the handler performs
exactly one storage upsert keyed by the stringified id, writing the item
with numeric-typed `str(year)`, string-typed title and string-typed
`str(id)`, and returns statusCode 200 with header
`Content-Type: application/json` and the fixed success body. -/
theorem valid_body_single_upsert_success (table : Option String) (now : Int)
    (uuid4 : String) (event : Event) (ctx : LambdaContext) (s : String)
    (m : List (String × Json)) (y t i : Json)
    (hbody : event.body = some s) (hne : s ≠ "")
    (hparse : json_loads s = .ok (.obj m))
    (hy : dictGet m "year" = some y)
    (ht : dictGet m "title" = some t)
    (hi : dictGet m "id" = some i) :
    (handler table now uuid4 event ctx).ops =
      [.putItem table [("year", .N (py_str y)), ("title", .S (py_str t)),
        ("id", .S (py_str i))]] ∧
    (handler table now uuid4 event ctx).result = .ok
      { statusCode := 200
        headers := [("Content-Type", "application/json")]
        body := "\x7b\"message\": \"Successfully inserted data!\"\x7d" } :=
  handler_body_ok table now uuid4 event ctx hbody
    (isEmpty_false_of_ne s hne) hparse hy ht hi

/-- Witness for C1: a concrete event with body
`{"year":1999,"title":"Up","id":"x"}`. -/
theorem valid_body_single_upsert_success_witness :
    (handler (some "demo_table") 1700000000 "gen-uuid"
        { body := some "\x7b\"year\":1999,\"title\":\"Up\",\"id\":\"x\"\x7d"
          httpMethod := some "POST"
          path := some "/v1"
          resource := some "/v1"
          requestContext := none }
        { aws_request_id := "req-1" }).ops =
      [.putItem (some "demo_table")
        [("year", .N "1999"), ("title", .S "Up"), ("id", .S "x")]] ∧
    (handler (some "demo_table") 1700000000 "gen-uuid"
        { body := some "\x7b\"year\":1999,\"title\":\"Up\",\"id\":\"x\"\x7d"
          httpMethod := some "POST"
          path := some "/v1"
          resource := some "/v1"
          requestContext := none }
        { aws_request_id := "req-1" }).result = .ok
      { statusCode := 200
        headers := [("Content-Type", "application/json")]
        body := "\x7b\"message\": \"Successfully inserted data!\"\x7d" } := by
  exact valid_body_single_upsert_success (some "demo_table") 1700000000
    "gen-uuid" _ _ "\x7b\"year\":1999,\"title\":\"Up\",\"id\":\"x\"\x7d"
    [("year", .num 1999), ("title", .str "Up"), ("id", .str "x")]
    (.num 1999) (.str "Up") (.str "x")
    rfl (by decide) rfl rfl rfl rfl

/-- C2: for every event whose body is absent or empty, the handler performs
exactly one storage upsert of the fixed default record with numeric-typed
year "2012", title "The Amazing Spider-Man 2" and the generated identifier,
and returns the same fixed 200 response as the valid-body path. -/
theorem empty_body_default_upsert_success (table : Option String) (now : Int)
    (uuid4 : String) (event : Event) (ctx : LambdaContext)
    (hbody : event.body = none ∨ event.body = some "") :
    (handler table now uuid4 event ctx).ops =
      [.putItem table [("year", .N "2012"),
        ("title", .S "The Amazing Spider-Man 2"), ("id", .S uuid4)]] ∧
    (handler table now uuid4 event ctx).result = .ok
      { statusCode := 200
        headers := [("Content-Type", "application/json")]
        body := "\x7b\"message\": \"Successfully inserted data!\"\x7d" } :=
  handler_default_ok table now uuid4 event ctx hbody

/-- Witness for C2: a concrete event with a null body. -/
theorem empty_body_default_upsert_success_witness :
    (handler (some "demo_table") 1700000000 "11e4b1c0-aaaa"
        { body := none
          httpMethod := some "GET"
          path := some "/v1"
          resource := some "/v1"
          requestContext := none }
        { aws_request_id := "req-2" }).ops =
      [.putItem (some "demo_table")
        [("year", .N "2012"), ("title", .S "The Amazing Spider-Man 2"),
          ("id", .S "11e4b1c0-aaaa")]] ∧
    (handler (some "demo_table") 1700000000 "11e4b1c0-aaaa"
        { body := none
          httpMethod := some "GET"
          path := some "/v1"
          resource := some "/v1"
          requestContext := none }
        { aws_request_id := "req-2" }).result = .ok
      { statusCode := 200
        headers := [("Content-Type", "application/json")]
        body := "\x7b\"message\": \"Successfully inserted data!\"\x7d" } := by
  exact empty_body_default_upsert_success (some "demo_table") 1700000000
    "11e4b1c0-aaaa" _ _ (Or.inl rfl)

/-- C3 counterexample: with body `{"year":1,"title":5,"id":2}` extraction
succeeds and the handler persists title "5" string-typed, yet the input
title value is the JSON number 5, which is no string value: the title too
is passed through `str()`, not left unchanged for every input mapping. -/
theorem title_unchanged_counterexample :
    json_loads "\x7b\"year\":1,\"title\":5,\"id\":2\x7d" =
      .ok (.obj [("year", .num 1), ("title", .num 5), ("id", .num 2)]) ∧
    dictGet [("year", .num 1), ("title", .num 5), ("id", .num 2)] "title" =
      some (.num 5) ∧
    (handler (some "demo_table") 0 "u"
        { body := some "\x7b\"year\":1,\"title\":5,\"id\":2\x7d"
          httpMethod := none
          path := none
          resource := none
          requestContext := none }
        { aws_request_id := "r" }).ops =
      [.putItem (some "demo_table")
        [("year", .N "1"), ("title", .S "5"), ("id", .S "2")]] ∧
    ∀ t0 : String, Json.num 5 ≠ Json.str t0 :=
  ⟨rfl, rfl, rfl, fun _ h => Json.noConfusion h⟩

/-- C3 (amended): after extracting "year", "title", "id", the handler
coerces all three values to strings via `str()`; in particular, when the
input title value is a string it is persisted unchanged, while year and id
are stringified. -/
theorem coercions_title_string_preserved (table : Option String) (now : Int)
    (uuid4 : String) (event : Event) (ctx : LambdaContext) (s : String)
    (m : List (String × Json)) (y i : Json) (t0 : String)
    (hbody : event.body = some s) (hne : s ≠ "")
    (hparse : json_loads s = .ok (.obj m))
    (hy : dictGet m "year" = some y)
    (ht : dictGet m "title" = some (.str t0))
    (hi : dictGet m "id" = some i) :
    (handler table now uuid4 event ctx).ops =
      [.putItem table [("year", .N (py_str y)), ("title", .S t0),
        ("id", .S (py_str i))]] ∧
    (handler table now uuid4 event ctx).result = .ok successResponse :=
  handler_body_ok table now uuid4 event ctx hbody
    (isEmpty_false_of_ne s hne) hparse hy ht hi

/-- Witness for the amended C3: a concrete event whose title is the string
"Up" (persisted unchanged) and whose year and id are numbers (stringified). -/
theorem coercions_title_string_preserved_witness :
    (handler (some "demo_table") 0 "u"
        { body := some "\x7b\"year\":1999,\"title\":\"Up\",\"id\":7\x7d"
          httpMethod := none
          path := none
          resource := none
          requestContext := none }
        { aws_request_id := "r" }).ops =
      [.putItem (some "demo_table")
        [("year", .N "1999"), ("title", .S "Up"), ("id", .S "7")]] ∧
    (handler (some "demo_table") 0 "u"
        { body := some "\x7b\"year\":1999,\"title\":\"Up\",\"id\":7\x7d"
          httpMethod := none
          path := none
          resource := none
          requestContext := none }
        { aws_request_id := "r" }).result = .ok successResponse := by
  exact coercions_title_string_preserved (some "demo_table") 0 "u" _ _
    "\x7b\"year\":1999,\"title\":\"Up\",\"id\":7\x7d"
    [("year", .num 1999), ("title", .str "Up"), ("id", .num 7)]
    (.num 1999) (.num 7) "Up"
    rfl (by decide) rfl rfl rfl rfl

/-- C4: a non-empty body parsing to a mapping that misses at least one of
the keys "year", "title", "id" makes the invocation fail with a KeyError,
with no storage write and no 200 response. -/
theorem missing_key_fails_no_write (table : Option String) (now : Int)
    (uuid4 : String) (event : Event) (ctx : LambdaContext) (s : String)
    (m : List (String × Json))
    (hbody : event.body = some s) (hne : s ≠ "")
    (hparse : json_loads s = .ok (.obj m))
    (hmiss : dictGet m "year" = none ∨ dictGet m "title" = none ∨
      dictGet m "id" = none) :
    (handler table now uuid4 event ctx).ops = [] ∧
    ∃ k, (handler table now uuid4 event ctx).result = .error (.keyError k) := by
  have hne' := isEmpty_false_of_ne s hne
  unfold handler
  rcases hmiss with h | h | h
  · simp [hbody, pyTruthy, hne', hparse, py_subscript, h]
  · cases hy : dictGet m "year" <;>
      simp [hbody, pyTruthy, hne', hparse, py_subscript, hy, h]
  · cases hy : dictGet m "year" <;> cases ht : dictGet m "title" <;>
      simp [hbody, pyTruthy, hne', hparse, py_subscript, hy, ht, h]

/-- Witness for C4: the concrete body `{"year":1999,"id":"x"}`, which is
missing "title". -/
theorem missing_key_fails_no_write_witness :
    (handler (some "demo_table") 0 "u"
        { body := some "\x7b\"year\":1999,\"id\":\"x\"\x7d"
          httpMethod := none
          path := none
          resource := none
          requestContext := none }
        { aws_request_id := "r" }).ops = [] ∧
    ∃ k, (handler (some "demo_table") 0 "u"
        { body := some "\x7b\"year\":1999,\"id\":\"x\"\x7d"
          httpMethod := none
          path := none
          resource := none
          requestContext := none }
        { aws_request_id := "r" }).result = .error (.keyError k) := by
  exact missing_key_fails_no_write (some "demo_table") 0 "u" _ _
    "\x7b\"year\":1999,\"id\":\"x\"\x7d"
    [("year", .num 1999), ("id", .str "x")]
    rfl (by decide) rfl (Or.inr (Or.inl rfl))

/-- C5: a non-empty body that is not valid JSON makes the invocation fail
with the propagated JSON decode error, with no storage write and no 200
response. -/
theorem invalid_json_fails_no_write (table : Option String) (now : Int)
    (uuid4 : String) (event : Event) (ctx : LambdaContext) (s : String)
    (hbody : event.body = some s) (hne : s ≠ "")
    (hparse : ∀ v, json_loads s ≠ .ok v) :
    (handler table now uuid4 event ctx).ops = [] ∧
    (handler table now uuid4 event ctx).result = .error .jsonDecodeError := by
  have hne' := isEmpty_false_of_ne s hne
  have hget : json_loads s = .error .jsonDecodeError := by
    cases hj : json_loads s with
    | ok v => exact absurd hj (hparse v)
    | error e =>
      have he := json_loads_error_shape s e hj
      subst he
      rfl
  unfold handler
  simp [hbody, pyTruthy, hne', hget]

/-- Witness for C5: the concrete body "not json". -/
theorem invalid_json_fails_no_write_witness :
    (handler (some "demo_table") 0 "u"
        { body := some "not json"
          httpMethod := none
          path := none
          resource := none
          requestContext := none }
        { aws_request_id := "r" }).ops = [] ∧
    (handler (some "demo_table") 0 "u"
        { body := some "not json"
          httpMethod := none
          path := none
          resource := none
          requestContext := none }
        { aws_request_id := "r" }).result = .error .jsonDecodeError := by
  exact invalid_json_fails_no_write (some "demo_table") 0 "u" _ _ "not json"
    rfl (by decide)
    (fun v hv => by
      rw [show json_loads "not json" = .error .jsonDecodeError from rfl] at hv
      exact Except.noConfusion hv)

/-- C6: an invocation that completes normally issues exactly one `put_item`
and no other storage operation; and on every branch, normal or failing, the
handler only ever issues `put_item` calls — it never reads. -/
theorem single_write_no_reads (table : Option String) (now : Int)
    (uuid4 : String) (event : Event) (ctx : LambdaContext) :
    ((∃ r, (handler table now uuid4 event ctx).result = .ok r) →
      ∃ item, (handler table now uuid4 event ctx).ops =
        [.putItem table item]) ∧
    ∀ op ∈ (handler table now uuid4 event ctx).ops,
      ∃ tb item, op = .putItem tb item := by
  unfold handler
  by_cases hb : pyTruthy event.body
  · simp only [hb, if_true]
    rcases hj : json_loads (event.body.getD "") with e | item
    · simp [hj]
    · rcases h1 : py_subscript item "year" with e | yv
      · simp [hj, h1]
      · rcases h2 : py_subscript item "title" with e | tv
        · simp [hj, h1, h2]
        · rcases h3 : py_subscript item "id" with e | iv <;>
            simp [hj, h1, h2, h3]
  · simp [hb]

/-- Witness for C6: at a concrete body-less event, the issued operations
are exactly one `put_item`. -/
theorem single_write_no_reads_witness :
    ∃ item, (handler (some "demo_table") 0 "uu"
        { body := none
          httpMethod := none
          path := none
          resource := none
          requestContext := none }
        { aws_request_id := "r" }).ops =
      [.putItem (some "demo_table") item] := by
  exact (single_write_no_reads (some "demo_table") 0 "uu" _ _).1
    ⟨successResponse, rfl⟩

/-- C7: the persistence operation is an unconditional upsert with
last-write-wins semantics: two invocations with valid bodies sharing a
stringified id leave the stored record at that id equal to the second
invocation's values, over any initial table state, and the second
invocation does not fail on the pre-existing key. -/
theorem upsert_last_write_wins (table : Option String) (now1 now2 : Int)
    (uuid1 uuid2 : String) (e1 e2 : Event) (c1 c2 : LambdaContext)
    (s1 s2 : String) (m1 m2 : List (String × Json))
    (y1 t1 i1 y2 t2 i2 : Json) (st : Store)
    (hb1 : e1.body = some s1) (hn1 : s1 ≠ "")
    (hp1 : json_loads s1 = .ok (.obj m1))
    (hy1 : dictGet m1 "year" = some y1)
    (ht1 : dictGet m1 "title" = some t1)
    (hi1 : dictGet m1 "id" = some i1)
    (hb2 : e2.body = some s2) (hn2 : s2 ≠ "")
    (hp2 : json_loads s2 = .ok (.obj m2))
    (hy2 : dictGet m2 "year" = some y2)
    (ht2 : dictGet m2 "title" = some t2)
    (hi2 : dictGet m2 "id" = some i2)
    (hsame : py_str i1 = py_str i2) :
    (handler table now2 uuid2 e2 c2).result = .ok successResponse ∧
    applyOps (applyOps st (handler table now1 uuid1 e1 c1).ops)
        (handler table now2 uuid2 e2 c2).ops (py_str i2) =
      some [("year", .N (py_str y2)), ("title", .S (py_str t2)),
        ("id", .S (py_str i2))] := by
  obtain ⟨ho1, hr1⟩ := handler_body_ok table now1 uuid1 e1 c1 hb1
    (isEmpty_false_of_ne s1 hn1) hp1 hy1 ht1 hi1
  obtain ⟨ho2, hr2⟩ := handler_body_ok table now2 uuid2 e2 c2 hb2
    (isEmpty_false_of_ne s2 hn2) hp2 hy2 ht2 hi2
  refine ⟨hr2, ?_⟩
  rw [ho1, ho2]
  simp [applyOps, applyOp, itemKey, List.find?]

/-- Witness for C7: two concrete events sharing id "x". -/
theorem upsert_last_write_wins_witness :
    (handler (some "demo_table") 2 "u2"
        { body := some "\x7b\"year\":2001,\"title\":\"B\",\"id\":\"x\"\x7d"
          httpMethod := none
          path := none
          resource := none
          requestContext := none }
        { aws_request_id := "r2" }).result = .ok successResponse ∧
    applyOps (applyOps (fun _ => none)
        (handler (some "demo_table") 1 "u1"
          { body := some "\x7b\"year\":1999,\"title\":\"A\",\"id\":\"x\"\x7d"
            httpMethod := none
            path := none
            resource := none
            requestContext := none }
          { aws_request_id := "r1" }).ops)
        (handler (some "demo_table") 2 "u2"
          { body := some "\x7b\"year\":2001,\"title\":\"B\",\"id\":\"x\"\x7d"
            httpMethod := none
            path := none
            resource := none
            requestContext := none }
          { aws_request_id := "r2" }).ops "x" =
      some [("year", .N "2001"), ("title", .S "B"), ("id", .S "x")] := by
  exact upsert_last_write_wins (some "demo_table") 1 2 "u1" "u2" _ _ _ _
    "\x7b\"year\":1999,\"title\":\"A\",\"id\":\"x\"\x7d"
    "\x7b\"year\":2001,\"title\":\"B\",\"id\":\"x\"\x7d"
    [("year", .num 1999), ("title", .str "A"), ("id", .str "x")]
    [("year", .num 2001), ("title", .str "B"), ("id", .str "x")]
    (.num 1999) (.str "A") (.str "x") (.num 2001) (.str "B") (.str "x")
    (fun _ => none)
    rfl (by decide) rfl rfl rfl rfl
    rfl (by decide) rfl rfl rfl rfl
    rfl

/-- C8: the contextual request metadata (request id, caller IP, user agent,
method, path, resource, stage) and the timestamp influence neither the
issued storage operations nor the returned result: two events with equal
bodies yield equal operations and equal results, for any metadata and
contexts, with the identifier source fixed. -/
theorem metadata_noninterference (table : Option String) (now1 now2 : Int)
    (uuid4 : String) (e1 e2 : Event) (c1 c2 : LambdaContext)
    (hbody : e1.body = e2.body) :
    (handler table now1 uuid4 e1 c1).ops =
      (handler table now2 uuid4 e2 c2).ops ∧
    (handler table now1 uuid4 e1 c1).result =
      (handler table now2 uuid4 e2 c2).result := by
  unfold handler
  rw [hbody]
  by_cases hb : pyTruthy e2.body
  · simp only [hb, if_true]
    rcases hj : json_loads (e2.body.getD "") with e | item
    · simp [hj]
    · rcases h1 : py_subscript item "year" with e | yv
      · simp [hj, h1]
      · rcases h2 : py_subscript item "title" with e | tv
        · simp [hj, h1, h2]
        · rcases h3 : py_subscript item "id" with e | iv <;>
            simp [hj, h1, h2, h3]
  · simp [hb]

/-- Witness for C8: two concrete events with the same body but different
metadata, timestamps and request ids. -/
theorem metadata_noninterference_witness :
    (handler (some "demo_table") 1 "u"
        { body := some "\x7b\"year\":1999,\"title\":\"Up\",\"id\":\"x\"\x7d"
          httpMethod := some "POST"
          path := some "/a"
          resource := some "/a"
          requestContext := some
            { identity := some
                { sourceIp := some "1.2.3.4", userAgent := some "curl" }
              stage := some "prod" } }
        { aws_request_id := "r1" }).ops =
      (handler (some "demo_table") 2 "u"
        { body := some "\x7b\"year\":1999,\"title\":\"Up\",\"id\":\"x\"\x7d"
          httpMethod := some "PUT"
          path := some "/b"
          resource := some "/b"
          requestContext := none }
        { aws_request_id := "r2" }).ops ∧
    (handler (some "demo_table") 1 "u"
        { body := some "\x7b\"year\":1999,\"title\":\"Up\",\"id\":\"x\"\x7d"
          httpMethod := some "POST"
          path := some "/a"
          resource := some "/a"
          requestContext := some
            { identity := some
                { sourceIp := some "1.2.3.4", userAgent := some "curl" }
              stage := some "prod" } }
        { aws_request_id := "r1" }).result =
      (handler (some "demo_table") 2 "u"
        { body := some "\x7b\"year\":1999,\"title\":\"Up\",\"id\":\"x\"\x7d"
          httpMethod := some "PUT"
          path := some "/b"
          resource := some "/b"
          requestContext := none }
        { aws_request_id := "r2" }).result := by
  exact metadata_noninterference (some "demo_table") 1 2 "u" _ _ _ _ rfl

/-- C9: a non-empty body parsing as valid JSON that is not a mapping (an
array, a bare number, a string, a boolean or null) makes the invocation
fail at key extraction with a TypeError, before any storage write. -/
theorem nonmapping_json_fails_no_write (table : Option String) (now : Int)
    (uuid4 : String) (event : Event) (ctx : LambdaContext) (s : String)
    (v : Json)
    (hbody : event.body = some s) (hne : s ≠ "")
    (hparse : json_loads s = .ok v)
    (hv : ∀ kvs, v ≠ Json.obj kvs) :
    (handler table now uuid4 event ctx).ops = [] ∧
    (handler table now uuid4 event ctx).result = .error .typeError := by
  have hne' := isEmpty_false_of_ne s hne
  have hsub : py_subscript v "year" = .error .typeError := by
    cases v <;> first | exact absurd rfl (hv _) | rfl
  unfold handler
  simp [hbody, pyTruthy, hne', hparse, hsub]

/-- Witness for C9: the concrete body "[1,2,3]". -/
theorem nonmapping_json_fails_no_write_witness :
    (handler (some "demo_table") 0 "u"
        { body := some "[1,2,3]"
          httpMethod := none
          path := none
          resource := none
          requestContext := none }
        { aws_request_id := "r" }).ops = [] ∧
    (handler (some "demo_table") 0 "u"
        { body := some "[1,2,3]"
          httpMethod := none
          path := none
          resource := none
          requestContext := none }
        { aws_request_id := "r" }).result = .error .typeError := by
  exact nonmapping_json_fails_no_write (some "demo_table") 0 "u" _ _
    "[1,2,3]" (.arr [.num 1, .num 2, .num 3])
    rfl (by decide) rfl (fun kvs h => Json.noConfusion h)

/-- C10: the handler never validates that the "year" value is an integer:
whatever JSON value sits under "year" in a three-key mapping is stringified
and written numeric-typed in the single upsert, with the 200 success
response. -/
theorem year_not_validated (table : Option String) (now : Int)
    (uuid4 : String) (event : Event) (ctx : LambdaContext) (s : String)
    (m : List (String × Json)) (y t i : Json)
    (hbody : event.body = some s) (hne : s ≠ "")
    (hparse : json_loads s = .ok (.obj m))
    (hy : dictGet m "year" = some y)
    (ht : dictGet m "title" = some t)
    (hi : dictGet m "id" = some i) :
    ∃ rest, (handler table now uuid4 event ctx).ops =
      [.putItem table (("year", .N (py_str y)) :: rest)] ∧
    (handler table now uuid4 event ctx).result = .ok successResponse := by
  obtain ⟨ho, hr⟩ := handler_body_ok table now uuid4 event ctx hbody
    (isEmpty_false_of_ne s hne) hparse hy ht hi
  exact ⟨_, ho, hr⟩

/-- Witness for C10: a concrete body whose "year" is the boolean `true`,
persisted as the numeric-typed attribute value "True". -/
theorem year_not_validated_witness :
    ∃ rest, (handler (some "demo_table") 0 "u"
        { body := some "\x7b\"year\":true,\"title\":\"T\",\"id\":1\x7d"
          httpMethod := none
          path := none
          resource := none
          requestContext := none }
        { aws_request_id := "r" }).ops =
      [.putItem (some "demo_table") (("year", .N "True") :: rest)] ∧
    (handler (some "demo_table") 0 "u"
        { body := some "\x7b\"year\":true,\"title\":\"T\",\"id\":1\x7d"
          httpMethod := none
          path := none
          resource := none
          requestContext := none }
        { aws_request_id := "r" }).result = .ok successResponse := by
  exact year_not_validated (some "demo_table") 0 "u" _ _
    "\x7b\"year\":true,\"title\":\"T\",\"id\":1\x7d"
    [("year", .bool true), ("title", .str "T"), ("id", .num 1)]
    (.bool true) (.str "T") (.num 1)
    rfl (by decide) rfl rfl rfl rfl

end ApigwHandler
